import Mathlib

/-!
Verification of the client-side orchestration script `static/js/main.js`
of the FoodChain Tracker web application.

The script is shallowly embedded: DOM state touched by a function is made
an explicit record, each JS function becomes a pure Lean function from its
inputs (and the relevant DOM state) to its outputs (and the updated state).
JS numbers are modelled as exact rationals (`ℚ`); JS builtins used by the
script (`parseFloat`, `parseInt`, `String.prototype.trim`, number
rendering) are modelled by small executable Lean functions covering the
numeric shapes the script actually handles (decimal literals, no
exponents, no hex).
-/

namespace FoodChain

/-- Models the JS whitespace test used by `trim`, `parseFloat`, `parseInt`. -/
def isJsWhitespace (c : Char) : Bool := c.isWhitespace

/-- Models `String.prototype.trim`: strips leading and trailing whitespace. -/
def jsTrim (s : String) : String :=
  String.mk (((s.data.dropWhile isJsWhitespace).reverse.dropWhile isJsWhitespace).reverse)

/-- Numeric value of a list of decimal digit characters. -/
def digitsToNat (ds : List Char) : Nat :=
  ds.foldl (fun n c => 10 * n + (c.toNat - ('0').toNat)) 0

/-- Models the JS builtin `parseFloat` on decimal literals: optional
leading whitespace, optional sign, integer digits, optional fractional
digits; trailing garbage is ignored; `none` models `NaN`.
(Exponent notation and `Infinity` are not used by the page.) -/
def jsParseFloat (s : String) : Option ℚ :=
  let cs := s.data.dropWhile isJsWhitespace
  let sign : ℚ := match cs with
    | '-' :: _ => -1
    | _ => 1
  let cs := match cs with
    | '-' :: t => t
    | '+' :: t => t
    | _ => cs
  let intPart := cs.takeWhile Char.isDigit
  let rest := cs.dropWhile Char.isDigit
  let fracPart := match rest with
    | '.' :: t => t.takeWhile Char.isDigit
    | _ => []
  if intPart = [] ∧ fracPart = [] then none
  else some (sign * ((digitsToNat intPart : ℚ) +
    (digitsToNat fracPart : ℚ) / (10 ^ fracPart.length)))

/-- Models the JS builtin `parseInt` (radix 10 inputs): optional leading
whitespace, optional sign, integer digits; `none` models `NaN`. -/
def jsParseInt (s : String) : Option Int :=
  let cs := s.data.dropWhile isJsWhitespace
  let sign : Int := match cs with
    | '-' :: _ => -1
    | _ => 1
  let cs := match cs with
    | '-' :: t => t
    | '+' :: t => t
    | _ => cs
  let ds := cs.takeWhile Char.isDigit
  if ds = [] then none else some (sign * (digitsToNat ds : Int))

/-- Models JS number-to-string conversion as used in template literals; the
page only interpolates integral bounds and readings, which JS renders as
plain decimal integers. -/
def jsNumToString (q : ℚ) : String :=
  if q.den = 1 then toString q.num else toString q

/-- Decides whether `pat` occurs as a contiguous subsequence of `l`. -/
def containsSeq (pat l : List Char) : Bool :=
  (List.range (l.length + 1)).any fun i => (l.drop i).take pat.length == pat

/-- Decides whether the string `pat` occurs inside the string `s`. -/
def strContainsSub (s pat : String) : Bool :=
  containsSeq pat.data s.data

/- =====================================================================
Notification center (`showNotification`, main.js lines 393-431).

The DOM state relevant to the notification center: the list of
`.floating-notification` elements currently in the document (in document
order) and the pending auto-dismiss timeout (`notificationTimeout`),
identified by a timer id so that cancellation is observable. `nextTimerId`
models the freshness of ids returned by `setTimeout`.
===================================================================== -/

/-- A call to `showNotification(message, type, duration)`. -/
structure NotifyCall where
  message : String
  ntype : String
  duration : Nat
deriving Repr, DecidableEq

/-- A floating-notification banner element present in the document. -/
structure Banner where
  message : String
  ntype : String
deriving Repr, DecidableEq

/-- DOM plus timer state owned by the notification center. -/
structure NotifState where
  banners : List Banner
  timer : Option Nat
  nextTimerId : Nat
deriving Repr, DecidableEq

/-- Lines 395-397: `if (notificationTimeout) clearTimeout(notificationTimeout)`. -/
def clearPendingTimeout (s : NotifState) : NotifState :=
  match s.timer with
  | some _ => { s with timer := none }
  | none => s

/-- Lines 399-402: `document.querySelector('.floating-notification')`
returns the first matching element, which is then removed. -/
def removeExistingNotification (s : NotifState) : NotifState :=
  match s.banners with
  | [] => s
  | _ :: rest => { s with banners := rest }

/-- Lines 393-431: `showNotification(message, type, duration)`. Cancels the
pending auto-dismiss timeout, removes the currently displayed banner,
appends the new banner to the document body, then schedules a fresh
auto-dismiss timeout. -/
def showNotification (s : NotifState) (c : NotifyCall) : NotifState :=
  let s1 := clearPendingTimeout s
  let s2 := removeExistingNotification s1
  let s3 := { s2 with banners := s2.banners ++ [Banner.mk c.message c.ntype] }
  { s3 with timer := some s3.nextTimerId, nextTimerId := s3.nextTimerId + 1 }

/-- The document before any notification has been issued. -/
def notifInit : NotifState := { banners := [], timer := none, nextTimerId := 0 }

/-- The notification state after a sequence of `showNotification` calls. -/
def runNotifications (calls : List NotifyCall) : NotifState :=
  calls.foldl showNotification notifInit

lemma showNotification_banners_of_le_one (s : NotifState) (c : NotifyCall)
    (h : s.banners.length ≤ 1) :
    (showNotification s c).banners = [{ message := c.message, ntype := c.ntype }] := by
  unfold showNotification removeExistingNotification clearPendingTimeout
  cases hb : s.banners with
  | nil => cases ht : s.timer <;> simp [hb, ht]
  | cons b rest =>
      have hrest : rest = [] := by
        rw [hb] at h; simpa using h
      cases ht : s.timer <;> simp [hb, ht, hrest]

lemma runNotifications_aux_len (calls : List NotifyCall) :
    ∀ s : NotifState, s.banners.length ≤ 1 →
      (calls.foldl showNotification s).banners.length ≤ 1 := by
  induction calls with
  | nil => intro s hs; simpa using hs
  | cons c rest ih =>
      intro s hs
      rw [List.foldl_cons]
      exact ih _ (by rw [showNotification_banners_of_le_one s c hs]; simp)

/-- C1. Last-notify-wins invariant of the notification center: after any
nonempty sequence of `showNotification` calls, exactly one
floating-notification banner exists in the document and it carries the
message (and kind) of the most recent call; moreover, at the program point
just before the new banner is inserted (after the clear-timeout and
remove-banner statements), the pending auto-dismiss timeout of whatever
banner was displayed before has already been canceled. -/
theorem c1_show_notification_last_wins (calls : List NotifyCall) (h : calls ≠ []) :
    (runNotifications calls).banners =
      [{ message := (calls.getLast h).message, ntype := (calls.getLast h).ntype }] ∧
    ∀ s : NotifState, (removeExistingNotification (clearPendingTimeout s)).timer = none := by
  constructor
  · induction calls using List.reverseRecOn with
    | nil => exact absurd rfl h
    | append_singleton l c ih =>
        unfold runNotifications
        rw [List.foldl_append, List.foldl_cons, List.foldl_nil]
        rw [showNotification_banners_of_le_one _ c
          (runNotifications_aux_len l notifInit (by simp [notifInit]))]
        simp [List.getLast_append]
  · intro s
    unfold clearPendingTimeout removeExistingNotification
    cases ht : s.timer <;> cases hb : s.banners <;> simp [ht, hb]

/-- Concrete instance of C1: two rapid calls leave exactly one banner,
showing the second message, and the timer slot is clear at insertion time. -/
theorem c1_show_notification_last_wins_witness :
    (runNotifications
      [{ message := "first", ntype := "info", duration := 5000 },
       { message := "second", ntype := "success", duration := 5000 }]).banners =
      [{ message := "second", ntype := "success" }] ∧
    (removeExistingNotification (clearPendingTimeout
      { banners := [{ message := "first", ntype := "info" }],
        timer := some 0, nextTimerId := 1 })).timer = none := by
  have h := c1_show_notification_last_wins
    [{ message := "first", ntype := "info", duration := 5000 },
     { message := "second", ntype := "success", duration := 5000 }] (by simp)
  exact ⟨h.1, h.2 _⟩

/- =====================================================================
Form guard (`validateForm` lines 177-222, `showFieldError` lines 225-235,
`clearFieldError` lines 238-245, `isValidEmail` lines 248-251,
`setupFormSubmissions` lines 157-174, `validateField` lines 805-844).

A form is the list of its input controls in document order. For each
control we keep the attributes the validator reads (`name`, `type`,
`value`, `required`, `min`, `max` as raw attribute strings) together with
the validation state it writes: the `is-invalid` / `is-valid` classes and
the list of adjacent `.invalid-feedback` message nodes (in document
order). -/

/-- An input control of a form, as seen by the validator. -/
structure Field where
  name : String
  tp : String
  value : String
  required : Bool
  minAttr : Option String
  maxAttr : Option String
  invalid : Bool
  validMark : Bool
  errors : List String
deriving Repr, DecidableEq

/-- Lines 238-245, `clearFieldError`: drops the `is-invalid` class and
removes the first adjacent `.invalid-feedback` node, if any. -/
def clearFieldError (f : Field) : Field :=
  { f with invalid := false, errors := f.errors.tail }

/-- Lines 225-235, `showFieldError`: clears the previous error, adds the
`is-invalid` class and appends a fresh message node. -/
def showFieldError (f : Field) (message : String) : Field :=
  let f := clearFieldError f
  { f with invalid := true, errors := f.errors ++ [message] }

/-- Lines 248-251, `isValidEmail`: the regex
`^[^\s@]+@[^\s@]+\.[^\s@]+$` — no whitespace anywhere, exactly one `@`
splitting nonempty halves, and a dot in the domain with nonempty text on
both sides. -/
def isValidEmail (email : String) : Bool :=
  match email.data.splitOn '@' with
  | [lp, dom] =>
      lp ≠ [] && (lp.all fun c => !c.isWhitespace) &&
      (dom.all fun c => !c.isWhitespace) &&
      (dom.tail.dropLast.contains '.')
  | _ => false

/-- Comparison `value < min` as JS performs it on `parseFloat` results:
false whenever either side is `NaN`. -/
def optLt : Option ℚ → Option ℚ → Bool
  | some x, some m => decide (x < m)
  | _, _ => false

/-- Comparison `value > max` as JS performs it on `parseFloat` results:
false whenever either side is `NaN`. -/
def optGt : Option ℚ → Option ℚ → Bool
  | some x, some m => decide (m < x)
  | _, _ => false

/-- Lines 189-192 of `validateForm`: the email-format check run on a
nonempty required field. -/
def emailCheck (f : Field) : Field × Bool :=
  if f.tp == "email" && !(isValidEmail f.value) then
    (showFieldError f "Please enter a valid email address", false)
  else (f, true)

/-- Lines 194-208 of `validateForm`: the number-range checks run on a
nonempty required field. `min`, `max` and the value are read through
`parseFloat`; an unparsable bound is `NaN` and its check is skipped; the
`min` and `max` checks run one after the other on the same field, the
second error message replacing the first. -/
def numberCheck (f : Field) : Field × Bool :=
  if f.tp == "number" then
    let minv := f.minAttr.bind jsParseFloat
    let maxv := f.maxAttr.bind jsParseFloat
    let v := jsParseFloat f.value
    let p1 :=
      if optLt v minv then
        (showFieldError f ("Value must be at least " ++ jsNumToString (minv.getD 0)), false)
      else (f, true)
    let p2 :=
      if optGt v maxv then
        (showFieldError p1.1 ("Value must be no more than " ++ jsNumToString (maxv.getD 0)), false)
      else (p1.1, true)
    (p2.1, p1.2 && p2.2)
  else (f, true)

/-- Lines 181-210 of `validateForm`: the per-field body of the
`requiredFields.forEach` loop. An empty (post-trim) value short-circuits
with the required-field error; otherwise the stale error is cleared and
the email and number checks run. The boolean is the field's contribution
to `isValid`. -/
def validateRequiredField (f : Field) : Field × Bool :=
  if jsTrim f.value == "" then
    (showFieldError f "This field is required", false)
  else
    let f1 := clearFieldError f
    let e := emailCheck f1
    let n := numberCheck e.1
    (n.1, e.2 && n.2)

/-- The effect of the `forEach` loop of lines 179-210 on one control:
controls without the `required` attribute are not visited. -/
def checkedField (f : Field) : Field :=
  if f.required then (validateRequiredField f).1 else f

/-- The contribution of one control to the accumulated `isValid` flag of
lines 178-210. -/
def checkedOk (f : Field) : Bool :=
  !f.required || (validateRequiredField f).2

/-- Models `form.querySelector('input[name="n"]')`: the first control with
the given name, together with its position (`none` models `null`). -/
def querySelectorNamed (fs : List Field) (n : String) : Option (Nat × Field) :=
  (fs.findIdx? (fun g => g.name == n)).bind (fun i => fs[i]?.map (fun f => (i, f)))

/-- Lines 177-222, `validateForm`: runs the required-field loop, then the
password-confirmation check (lines 212-219: `querySelector` returns the
first control with each name), and returns the `isValid` flag together
with the updated form. -/
def validateForm (form : List Field) : Bool × List Field :=
  let fields1 := form.map checkedField
  let isValid1 := form.all checkedOk
  match querySelectorNamed fields1 "password",
        querySelectorNamed fields1 "confirm_password" with
  | some pc, some cc =>
      if pc.2.value != cc.2.value then
        (false, fields1.set cc.1 (showFieldError cc.2 "Passwords do not match"))
      else (isValid1, fields1)
  | _, _ => (isValid1, fields1)

/-- Lines 157-174, the submit handler installed by `setupFormSubmissions`:
on a failing validation the event is prevented and no loading state is
added; on success the submit button enters the loading state. Returns
(prevented, loadingAdded, updated form). -/
def handleSubmit (form : List Field) : Bool × Bool × List Field :=
  let r := validateForm form
  (!r.1, r.1, r.2)

/-- Lines 805-844, `validateField`: the real-time (blur) validator for a
single control; required, email and number checks short-circuit in that
order, and a passing control gets the `is-valid` mark. -/
def validateField (f : Field) : Field × Bool :=
  let value := jsTrim f.value
  let f0 := clearFieldError f
  if f0.required && (value == "") then
    (showFieldError f0 "This field is required", false)
  else if f0.tp == "email" && (value != "") && !(isValidEmail value) then
    (showFieldError f0 "Please enter a valid email address", false)
  else if f0.tp == "number" && (value != "") then
    let minv := f0.minAttr.bind jsParseFloat
    let maxv := f0.maxAttr.bind jsParseFloat
    let numValue := jsParseFloat value
    if optLt numValue minv then
      (showFieldError f0 ("Value must be at least " ++ jsNumToString (minv.getD 0)), false)
    else if optGt numValue maxv then
      (showFieldError f0 ("Value must be no more than " ++ jsNumToString (maxv.getD 0)), false)
    else ({ f0 with validMark := true }, true)
  else ({ f0 with validMark := true }, true)

/- Helper lemmas about the form validator. -/

@[simp] lemma clearFieldError_name (f : Field) : (clearFieldError f).name = f.name := rfl

@[simp] lemma showFieldError_name (f : Field) (m : String) :
    (showFieldError f m).name = f.name := rfl

@[simp] lemma clearFieldError_value (f : Field) : (clearFieldError f).value = f.value := rfl

@[simp] lemma showFieldError_value (f : Field) (m : String) :
    (showFieldError f m).value = f.value := rfl

lemma emailCheck_fst_name (f : Field) : ((emailCheck f).1).name = f.name := by
  unfold emailCheck; split <;> simp

lemma numberCheck_fst_name (f : Field) : ((numberCheck f).1).name = f.name := by
  unfold numberCheck
  split
  · dsimp only
    split <;> split <;> simp
  · rfl

lemma emailCheck_fst_value (f : Field) : ((emailCheck f).1).value = f.value := by
  unfold emailCheck; split <;> simp

lemma numberCheck_fst_value (f : Field) : ((numberCheck f).1).value = f.value := by
  unfold numberCheck
  split
  · dsimp only
    split <;> split <;> simp
  · rfl

lemma validateRequiredField_fst_name (f : Field) :
    ((validateRequiredField f).1).name = f.name := by
  unfold validateRequiredField
  split
  · simp
  · dsimp only
    rw [numberCheck_fst_name, emailCheck_fst_name, clearFieldError_name]

lemma validateRequiredField_fst_value (f : Field) :
    ((validateRequiredField f).1).value = f.value := by
  unfold validateRequiredField
  split
  · simp
  · dsimp only
    rw [numberCheck_fst_value, emailCheck_fst_value, clearFieldError_value]

lemma checkedField_name (f : Field) : (checkedField f).name = f.name := by
  unfold checkedField; split
  · exact validateRequiredField_fst_name f
  · rfl

lemma checkedField_value (f : Field) : (checkedField f).value = f.value := by
  unfold checkedField; split
  · exact validateRequiredField_fst_value f
  · rfl

lemma errors_tail_eq_nil (f : Field) (h : f.errors.length ≤ 1) : f.errors.tail = [] := by
  rcases he : f.errors with _ | ⟨a, _ | ⟨b, t⟩⟩
  · rfl
  · rfl
  · rw [he] at h; simp at h

lemma showFieldError_eq (f : Field) (m : String) (h : f.errors.length ≤ 1) :
    showFieldError f m = { f with invalid := true, errors := [m] } := by
  unfold showFieldError clearFieldError
  simp [errors_tail_eq_nil f h]

lemma showFieldError_clearFieldError_eq (f : Field) (m : String) (h : f.errors.length ≤ 1) :
    showFieldError (clearFieldError f) m = { f with invalid := true, errors := [m] } := by
  unfold showFieldError clearFieldError
  simp [errors_tail_eq_nil f h]

lemma validateRequiredField_of_empty (f : Field) (h : jsTrim f.value = "") :
    validateRequiredField f = (showFieldError f "This field is required", false) := by
  unfold validateRequiredField
  rw [if_pos (by simp [h])]

lemma checkedField_of_required_empty (f : Field) (hreq : f.required = true)
    (h : jsTrim f.value = "") :
    checkedField f = showFieldError f "This field is required" := by
  unfold checkedField
  rw [if_pos hreq, validateRequiredField_of_empty f h]

lemma checkedOk_of_required_empty (f : Field) (hreq : f.required = true)
    (h : jsTrim f.value = "") : checkedOk f = false := by
  unfold checkedOk
  rw [hreq, validateRequiredField_of_empty f h]
  rfl

lemma findIdx?_some_elem {α} (p : α → Bool) (l : List α) (i : ℕ)
    (h : l.findIdx? p = some i) : ∃ a, l[i]? = some a ∧ p a = true := by
  rw [List.findIdx?_eq_some_iff_findIdx_eq] at h
  obtain ⟨hlt, hidx⟩ := h
  exact ⟨l[i], by simp [List.getElem?_eq_some, hlt],
    by subst hidx; exact List.findIdx_getElem⟩

lemma querySelectorNamed_eq_some {fs : List Field} {n : String} {pc : Nat × Field}
    (h : querySelectorNamed fs n = some pc) :
    fs[pc.1]? = some pc.2 ∧ pc.2.name = n := by
  unfold querySelectorNamed at h
  rcases hidx : fs.findIdx? (fun g => g.name == n) with _ | j
  · rw [hidx] at h; cases h
  · rw [hidx, Option.some_bind] at h
    obtain ⟨a, ha, hpa⟩ := findIdx?_some_elem _ _ _ hidx
    rw [ha, Option.map_some'] at h
    cases h
    exact ⟨ha, by simpa using hpa⟩

lemma querySelectorNamed_eq_none_of (fs : List Field) (n : String)
    (h : ∀ g ∈ fs, g.name ≠ n) : querySelectorNamed fs n = none := by
  unfold querySelectorNamed
  rw [List.findIdx?_eq_none_iff.mpr (by intro x hx; simpa using h x hx)]
  rfl

lemma mem_of_getElem? {α} {l : List α} {i : ℕ} {a : α} (h : l[i]? = some a) : a ∈ l := by
  obtain ⟨hlt, rfl⟩ := List.getElem?_eq_some.mp h
  exact List.getElem_mem hlt

/-- If some control makes the required-field loop fail, `validateForm`
returns false and, at any index the password-confirmation check does not
overwrite, the updated form is the loop's output. -/
lemma validateForm_fst_false_of_all_false (form : List Field)
    (h : form.all checkedOk = false) : (validateForm form).1 = false := by
  unfold validateForm
  rcases hq1 : querySelectorNamed (form.map checkedField) "password" with _ | pc
  · simp [hq1, h]
  · rcases hq2 : querySelectorNamed (form.map checkedField) "confirm_password" with _ | cc
    · simp [hq1, hq2, h]
    · simp only [hq1, hq2]
      split <;> simp [h]

/-- A password control holding a value, not itself flagged required. -/
def cexPasswordField : Field :=
  { name := "password", tp := "password", value := "x", required := false,
    minAttr := none, maxAttr := none, invalid := false, validMark := false, errors := [] }

/-- A required, empty confirmation control. -/
def cexConfirmField : Field :=
  { name := "confirm_password", tp := "password", value := "", required := true,
    minAttr := none, maxAttr := none, invalid := false, validMark := false, errors := [] }

/-- C2 counterexample. In a form whose required empty field is the
password-confirmation control while a differing password control exists,
the single error node attached by `validateForm` reads "Passwords do not
match", not "This field is required": the cross-field check of lines
212-219 overwrites the required-field message. Submission is still
blocked. -/
theorem c2_counterexample :
    (validateForm [cexPasswordField, cexConfirmField]).2[1]? ≠
      some { cexConfirmField with invalid := true, errors := ["This field is required"] } ∧
    (validateForm [cexPasswordField, cexConfirmField]).2[1]? =
      some { cexConfirmField with invalid := true, errors := ["Passwords do not match"] } ∧
    (validateForm [cexPasswordField, cexConfirmField]).1 = false ∧
    cexConfirmField.required = true ∧ jsTrim cexConfirmField.value = "" := by
  refine ⟨?_, by with_unfolding_all rfl, by with_unfolding_all rfl, rfl, rfl⟩
  have h : (validateForm [cexPasswordField, cexConfirmField]).2[1]? =
      some { cexConfirmField with invalid := true, errors := ["Passwords do not match"] } := by
    with_unfolding_all rfl
  rw [h]
  intro hcontra
  have := Option.some.inj hcontra
  have h2 := congrArg Field.errors this
  simp at h2

/-- A required text control whose value is whitespace only. -/
def c2WitnessField : Field :=
  { name := "supplier", tp := "text", value := "   ", required := true,
    minAttr := none, maxAttr := none, invalid := false, validMark := false, errors := [] }

/- Cross-field password check (C6). -/

lemma querySelectorNamed_map_checkedField (form : List Field) (n : String) :
    querySelectorNamed (form.map checkedField) n =
      (querySelectorNamed form n).map (fun x => (x.1, checkedField x.2)) := by
  unfold querySelectorNamed
  rw [List.findIdx?_map]
  have hpred : ((fun g => g.name == n) ∘ checkedField) = (fun g : Field => g.name == n) := by
    funext g; simp [checkedField_name]
  rw [hpred]
  rcases h : form.findIdx? (fun g => g.name == n) with _ | j
  · rw [h]; rfl
  · rw [h, Option.some_bind, Option.some_bind]
    rcases hg : form[j]? with _ | a
    · simp [List.getElem?_map, hg]
    · simp [List.getElem?_map, hg]

lemma clearFieldError_errors_le_one (f : Field) (h : f.errors.length ≤ 1) :
    (clearFieldError f).errors.length ≤ 1 := by
  simp only [clearFieldError, errors_tail_eq_nil f h]
  simp

lemma showFieldError_errors_eq (f : Field) (m : String) (h : f.errors.length ≤ 1) :
    (showFieldError f m).errors = [m] := by
  rw [showFieldError_eq f m h]

lemma emailCheck_errors_le_one (f : Field) (h : f.errors.length ≤ 1) :
    ((emailCheck f).1).errors.length ≤ 1 := by
  unfold emailCheck
  split
  · simp [showFieldError_errors_eq f _ h]
  · exact h

lemma numberCheck_errors_le_one (f : Field) (h : f.errors.length ≤ 1) :
    ((numberCheck f).1).errors.length ≤ 1 := by
  unfold numberCheck
  split
  · dsimp only
    split
    · split
      · rw [showFieldError_errors_eq _ _ (by simp [showFieldError_errors_eq f _ h])]
        simp
      · simp [showFieldError_errors_eq f _ h]
    · split
      · simp [showFieldError_errors_eq f _ h]
      · exact h
  · exact h

lemma validateRequiredField_errors_le_one (f : Field) (h : f.errors.length ≤ 1) :
    ((validateRequiredField f).1).errors.length ≤ 1 := by
  unfold validateRequiredField
  split
  · simp [showFieldError_errors_eq f _ h]
  · exact numberCheck_errors_le_one _ (emailCheck_errors_le_one _ (clearFieldError_errors_le_one f h))

lemma checkedField_errors_le_one (f : Field) (h : f.errors.length ≤ 1) :
    (checkedField f).errors.length ≤ 1 := by
  unfold checkedField
  split
  · exact validateRequiredField_errors_le_one f h
  · exact h

/-- The overwrite condition of the cross-field check at lines 212-219, as
a predicate on a form and an index: the index holds the first
`confirm_password` control while a first `password` control with a
differing value exists, so `showFieldError(confirmPassword, 'Passwords do
not match')` will replace that control's message after the required-field
loop. -/
def passwordOverwriteTarget (form : List Field) (i : ℕ) : Bool :=
  match querySelectorNamed form "password" with
  | none => false
  | some pc =>
      match querySelectorNamed form "confirm_password" with
      | none => false
      | some cc => pc.2.value != cc.2.value && cc.1 == i

/-- At an index the cross-field check does not overwrite, the form
`validateForm` returns is the required-field loop's output. -/
lemma validateForm_snd_not_target (form : List Field) (i : ℕ)
    (h : passwordOverwriteTarget form i = false) :
    (validateForm form).2[i]? = (form.map checkedField)[i]? := by
  unfold validateForm
  rcases hp : querySelectorNamed form "password" with _ | pc
  · have hp' : querySelectorNamed (form.map checkedField) "password" = none := by
      rw [querySelectorNamed_map_checkedField, hp]; rfl
    simp [hp']
  · have hp' : querySelectorNamed (form.map checkedField) "password" =
        some (pc.1, checkedField pc.2) := by
      rw [querySelectorNamed_map_checkedField, hp]; rfl
    rcases hc : querySelectorNamed form "confirm_password" with _ | cc
    · have hc' : querySelectorNamed (form.map checkedField) "confirm_password" = none := by
        rw [querySelectorNamed_map_checkedField, hc]; rfl
      simp [hp', hc']
    · have hc' : querySelectorNamed (form.map checkedField) "confirm_password" =
          some (cc.1, checkedField cc.2) := by
        rw [querySelectorNamed_map_checkedField, hc]; rfl
      simp only [passwordOverwriteTarget, hp, hc] at h
      simp only [hp', hc']
      cases hvv : pc.2.value != cc.2.value with
      | false =>
          rw [if_neg (by simp [checkedField_value, hvv])]
      | true =>
          rw [hvv, Bool.true_and] at h
          have hne : cc.1 ≠ i := by simpa using h
          rw [if_pos (by simp [checkedField_value, hvv])]
          simp [List.getElem?_set, hne]

/-- The fate of the control at index `i` after `validateForm`: the
required-field loop's output when the cross-field check does not target
it; that output with its message replaced by "Passwords do not match"
when it does. -/
lemma validateForm_result_at (form : List Field) (i : ℕ) (f : Field)
    (hf : form[i]? = some f) (herr : f.errors.length ≤ 1) :
    (passwordOverwriteTarget form i = false →
      (validateForm form).2[i]? = some (checkedField f)) ∧
    (passwordOverwriteTarget form i = true →
      (validateForm form).2[i]? =
        some { checkedField f with invalid := true, errors := ["Passwords do not match"] }) := by
  constructor
  · intro h
    rw [validateForm_snd_not_target form i h, List.getElem?_map, hf, Option.map_some']
  · intro h
    rcases hp : querySelectorNamed form "password" with _ | pc
    · simp only [passwordOverwriteTarget, hp, Bool.false_eq_true] at h
    · rcases hc : querySelectorNamed form "confirm_password" with _ | cc
      · simp only [passwordOverwriteTarget, hp, hc, Bool.false_eq_true] at h
      · simp only [passwordOverwriteTarget, hp, hc, Bool.and_eq_true] at h
        obtain ⟨hvv, hci⟩ := h
        have hvv' : pc.2.value ≠ cc.2.value := bne_iff_ne.mp hvv
        have hci' : cc.1 = i := by simpa using hci
        have hp' : querySelectorNamed (form.map checkedField) "password" =
            some (pc.1, checkedField pc.2) := by
          rw [querySelectorNamed_map_checkedField, hp]; rfl
        have hc' : querySelectorNamed (form.map checkedField) "confirm_password" =
            some (cc.1, checkedField cc.2) := by
          rw [querySelectorNamed_map_checkedField, hc]; rfl
        have hVF : validateForm form = (false, (form.map checkedField).set cc.1
            (showFieldError (checkedField cc.2) "Passwords do not match")) := by
          unfold validateForm
          simp only [hp', hc']
          rw [if_pos]
          simp only [checkedField_value, bne_iff_ne, ne_eq]
          exact hvv'
        obtain ⟨hgetc, _⟩ := querySelectorNamed_eq_some hc
        rw [hci', hf] at hgetc
        have hccf : cc.2 = f := (Option.some.inj hgetc).symm
        have hilen : i < form.length := (List.getElem?_eq_some.mp hf).1
        rw [hVF, hci']
        rw [List.getElem?_set, if_pos rfl, if_pos (by rw [List.length_map]; exact hilen)]
        rw [hccf, showFieldError_eq (checkedField f) _ (checkedField_errors_le_one f herr)]

/-- C2 (amended). A required field that is empty after trimming makes
`validateForm` return false, so the submit handler prevents submission
and adds no loading state, and no email or number check runs on that
field; the field ends up marked invalid with exactly one adjacent error
node (any previous node removed first): it reads "This field is
required", except precisely when the field is the first confirmation
control while a first password control with a differing value exists —
then the cross-field check overwrites it and the single node reads
"Passwords do not match". The hypothesis on `errors` is the document
invariant that a field carries at most one stale message node. -/
theorem c2_required_empty_blocks (form : List Field) (i : ℕ) (f : Field)
    (hf : form[i]? = some f) (hreq : f.required = true)
    (hval : jsTrim f.value = "") (herr : f.errors.length ≤ 1) :
    (validateForm form).1 = false ∧
    (handleSubmit form).1 = true ∧ (handleSubmit form).2.1 = false ∧
    (passwordOverwriteTarget form i = false →
      (validateForm form).2[i]? =
        some { f with invalid := true, errors := ["This field is required"] }) ∧
    (passwordOverwriteTarget form i = true →
      (validateForm form).2[i]? =
        some { f with invalid := true, errors := ["Passwords do not match"] }) := by
  have hall : form.all checkedOk = false :=
    List.all_eq_false.mpr ⟨f, mem_of_getElem? hf,
      by simp [checkedOk_of_required_empty f hreq hval]⟩
  have hfst : (validateForm form).1 = false := validateForm_fst_false_of_all_false form hall
  have hcf : checkedField f = { f with invalid := true, errors := ["This field is required"] } := by
    rw [checkedField_of_required_empty f hreq hval, showFieldError_eq f _ herr]
  have hres := validateForm_result_at form i f hf herr
  refine ⟨hfst, by unfold handleSubmit; simp [hfst], by unfold handleSubmit; simp [hfst], ?_, ?_⟩
  · intro h
    rw [hres.1 h, hcf]
  · intro h
    have h2 := hres.2 h
    rw [hcf] at h2
    exact h2

/-- Concrete instances of the amended C2: a required whitespace-only field
keeps "This field is required" (the password check does not target it, as
also when both password controls are equal or absent), and the
counterexample form's confirmation control — the overwrite target — ends
with "Passwords do not match"; submission is blocked in both. -/
theorem c2_required_empty_blocks_witness :
    (validateForm [c2WitnessField]).1 = false ∧
    (handleSubmit [c2WitnessField]).1 = true ∧ (handleSubmit [c2WitnessField]).2.1 = false ∧
    (validateForm [c2WitnessField]).2[0]? =
      some { c2WitnessField with invalid := true, errors := ["This field is required"] } ∧
    (validateForm [cexPasswordField, cexConfirmField]).2[1]? =
      some { cexConfirmField with invalid := true, errors := ["Passwords do not match"] } := by
  have h1 := c2_required_empty_blocks [c2WitnessField] 0 c2WitnessField rfl rfl
    (by decide) (by decide)
  have h2 := c2_required_empty_blocks [cexPasswordField, cexConfirmField] 1 cexConfirmField
    rfl rfl rfl (by decide)
  exact ⟨h1.1, h1.2.1, h1.2.2.1, h1.2.2.2.1 (by decide), h2.2.2.2.2 (by decide)⟩

/-- C6. Whenever a password control and a confirmation control both exist
in a form (first match each, as `querySelector` returns) and their values
differ, `validateForm` returns false, submission is prevented, and the
confirmation control ends up marked invalid carrying exactly one error
node reading "Passwords do not match" — independently of whether the two
controls pass or fail their own required/format checks. -/
theorem c6_password_mismatch_blocks (form : List Field) (pc cc : Nat × Field)
    (hp : querySelectorNamed form "password" = some pc)
    (hc : querySelectorNamed form "confirm_password" = some cc)
    (hne : pc.2.value ≠ cc.2.value)
    (herr : cc.2.errors.length ≤ 1) :
    (validateForm form).1 = false ∧
    (∃ g, (validateForm form).2[cc.1]? = some g ∧
      g.invalid = true ∧ g.errors = ["Passwords do not match"] ∧ g.value = cc.2.value) ∧
    (handleSubmit form).1 = true := by
  have hp' : querySelectorNamed (form.map checkedField) "password" =
      some (pc.1, checkedField pc.2) := by
    rw [querySelectorNamed_map_checkedField, hp]; rfl
  have hc' : querySelectorNamed (form.map checkedField) "confirm_password" =
      some (cc.1, checkedField cc.2) := by
    rw [querySelectorNamed_map_checkedField, hc]; rfl
  have hVF : validateForm form = (false, (form.map checkedField).set cc.1
      (showFieldError (checkedField cc.2) "Passwords do not match")) := by
    unfold validateForm
    simp only [hp', hc']
    rw [if_pos]
    simp only [checkedField_value, bne_iff_ne, ne_eq]
    exact hne
  have hlen : cc.1 < form.length := by
    obtain ⟨hget, _⟩ := querySelectorNamed_eq_some hc
    obtain ⟨hlt, _⟩ := List.getElem?_eq_some.mp hget
    exact hlt
  refine ⟨by rw [hVF], ⟨showFieldError (checkedField cc.2) "Passwords do not match", ?_, ?_, ?_, ?_⟩, ?_⟩
  · rw [hVF]
    simp [List.getElem?_set, hlen]
  · simp [showFieldError]
  · exact showFieldError_errors_eq _ _ (checkedField_errors_le_one cc.2 herr)
  · simp [checkedField_value]
  · unfold handleSubmit
    simp [hVF]

/-- Concrete instance of C6: both controls well-formed and nonempty, yet
mismatching values block the form. -/
theorem c6_password_mismatch_blocks_witness :
    (validateForm [{ cexPasswordField with required := true },
      { cexConfirmField with value := "y", required := true }]).1 = false ∧
    (∃ g, (validateForm [{ cexPasswordField with required := true },
      { cexConfirmField with value := "y", required := true }]).2[1]? = some g ∧
      g.invalid = true ∧ g.errors = ["Passwords do not match"] ∧
      g.value = ({ cexConfirmField with value := "y", required := true } : Field).value) ∧
    (handleSubmit [{ cexPasswordField with required := true },
      { cexConfirmField with value := "y", required := true }]).1 = true := by
  have h := c6_password_mismatch_blocks
    [{ cexPasswordField with required := true },
     { cexConfirmField with value := "y", required := true }]
    (0, { cexPasswordField with required := true })
    (1, { cexConfirmField with value := "y", required := true })
    (by decide) (by decide) (by decide) (by decide)
  exact h

/- Number-range checks (C5). -/

@[simp] lemma clearFieldError_tp (f : Field) : (clearFieldError f).tp = f.tp := rfl

@[simp] lemma clearFieldError_minAttr (f : Field) : (clearFieldError f).minAttr = f.minAttr := rfl

@[simp] lemma clearFieldError_maxAttr (f : Field) : (clearFieldError f).maxAttr = f.maxAttr := rfl

lemma optLt_none (v : Option ℚ) : optLt v none = false := by cases v <;> rfl

lemma optGt_none (v : Option ℚ) : optGt v none = false := by cases v <;> rfl

lemma emailCheck_not_email (f : Field) (h : (f.tp == "email") = false) :
    emailCheck f = (f, true) := by
  unfold emailCheck
  rw [if_neg]
  simp [h]

lemma numberCheck_min_fires (f : Field) (htp : (f.tp == "number") = true) (m : ℚ)
    (hmin : f.minAttr.bind jsParseFloat = some m)
    (hlt : optLt (jsParseFloat f.value) (f.minAttr.bind jsParseFloat) = true)
    (hmax : optGt (jsParseFloat f.value) (f.maxAttr.bind jsParseFloat) = false) :
    numberCheck f =
      (showFieldError f ("Value must be at least " ++ jsNumToString m), false) := by
  unfold numberCheck
  rw [if_pos htp]
  dsimp only
  rw [hlt, hmax, hmin]
  simp

lemma numberCheck_max_fires (f : Field) (htp : (f.tp == "number") = true) (m : ℚ)
    (hmaxv : f.maxAttr.bind jsParseFloat = some m)
    (hgt : optGt (jsParseFloat f.value) (f.maxAttr.bind jsParseFloat) = true)
    (herr : f.errors.length ≤ 1) :
    numberCheck f =
      ({ f with
        invalid := true,
        errors := ["Value must be no more than " ++ jsNumToString m] }, false) := by
  unfold numberCheck
  rw [if_pos htp]
  dsimp only
  rw [hgt, hmaxv]
  cases hmin : optLt (jsParseFloat f.value) (f.minAttr.bind jsParseFloat) with
  | false =>
      simp only [Bool.false_eq_true, if_false, reduceIte, Option.getD_some]
      rw [showFieldError_eq f _ herr]
      simp
  | true =>
      simp only [if_true, reduceIte, Option.getD_some]
      rw [showFieldError_eq f _ herr]
      rw [showFieldError_eq _ _ (by simp)]
      simp

lemma numberCheck_range_ok (f : Field)
    (hminOk : optLt (jsParseFloat f.value) (f.minAttr.bind jsParseFloat) = false)
    (hmaxOk : optGt (jsParseFloat f.value) (f.maxAttr.bind jsParseFloat) = false) :
    numberCheck f = (f, true) := by
  unfold numberCheck
  split
  · dsimp only
    rw [hminOk, hmaxOk]
    simp
  · rfl

lemma validateRequiredField_nonempty (f : Field) (hne : (jsTrim f.value == "") = false) :
    validateRequiredField f =
      ((numberCheck (emailCheck (clearFieldError f)).1).1,
        (emailCheck (clearFieldError f)).2 && (numberCheck (emailCheck (clearFieldError f)).1).2) := by
  unfold validateRequiredField
  rw [if_neg (by simp [hne])]

lemma validateForm_fst_false_of_field (form : List Field) (i : ℕ) (f : Field)
    (hf : form[i]? = some f) (hok : checkedOk f = false) :
    (validateForm form).1 = false :=
  validateForm_fst_false_of_all_false form
    (List.all_eq_false.mpr ⟨f, mem_of_getElem? hf, by simp [hok]⟩)

lemma strContainsSub_append_right (a b : String) : strContainsSub (a ++ b) b = true := by
  unfold strContainsSub containsSeq
  rw [List.any_eq_true]
  refine ⟨a.data.length, ?_, ?_⟩
  · rw [List.mem_range, String.data_append, List.length_append]
    omega
  · rw [String.data_append, List.drop_left, List.take_of_length_le (le_refl _)]
    exact beq_self_eq_true b.data

/-- A number control with `min="5"` and value 4 that is not flagged
required: `validateForm` only visits `[required]` controls. -/
def c5CexField : Field :=
  { name := "qty", tp := "number", value := "4", required := false,
    minAttr := some "5", maxAttr := none, invalid := false, validMark := false, errors := [] }

/-- C5 counterexample. A number field with a declared parseable `min` of 5
and value 4 does not make `validateForm` fail when the field lacks the
`required` attribute: the required-field loop of lines 179-210 never
visits it, the form validates and the field stays untouched. -/
theorem c5_counterexample :
    (validateForm [c5CexField]).1 = true ∧
    (validateForm [c5CexField]).2[0]? = some c5CexField ∧
    c5CexField.tp = "number" ∧ c5CexField.minAttr = some "5" ∧
    jsParseFloat "5" = some 5 ∧ c5CexField.value = "4" :=
  ⟨by with_unfolding_all rfl, by with_unfolding_all rfl, rfl, rfl,
    by with_unfolding_all rfl, rfl⟩

/-- C5 (amended), part 1 helper: the fully evaluated per-field check for a
required number field whose parseable `min` bound fires. -/
lemma validateRequiredField_min_5_value_4 (f : Field)
    (htp : f.tp = "number") (hminA : f.minAttr = some "5") (hmaxA : f.maxAttr = none)
    (hval : f.value = "4") (herr : f.errors.length ≤ 1) :
    validateRequiredField f =
      ({ f with invalid := true, errors := ["Value must be at least 5"] }, false) := by
  have hne : (jsTrim f.value == "") = false := by rw [hval]; decide
  rw [validateRequiredField_nonempty f hne]
  rw [emailCheck_not_email (clearFieldError f) (by rw [clearFieldError_tp, htp]; decide)]
  dsimp only
  rw [numberCheck_min_fires (clearFieldError f) (by rw [clearFieldError_tp, htp]; decide) 5
    (by rw [clearFieldError_minAttr, hminA]; with_unfolding_all rfl)
    (by rw [clearFieldError_value, clearFieldError_minAttr, hval, hminA]; with_unfolding_all rfl)
    (by rw [clearFieldError_value, clearFieldError_maxAttr, hmaxA]; simp [optGt_none])]
  rw [show ("Value must be at least " ++ jsNumToString 5) = "Value must be at least 5" by
    with_unfolding_all rfl]
  rw [showFieldError_clearFieldError_eq f _ herr]
  simp

/-- C5 (amended). For required number-typed fields: with `min="5"`, value
`"4"` makes `validateForm` fail carrying exactly one message containing
the literal bound `5` ("Passwords do not match" replacing it precisely
when the field is the overwrite target of the cross-field check, as in
C2), while value `"5"` passes the range check (the field contributes
validity and, when not so overwritten, ends with no error node);
symmetrically a parseable `max` bound `m` with a parsed value above it —
whether or not a `min` is also declared, since the max message replaces
any min message — fails with the single message containing the rendered
bound. Each part assumes the field starts with at most one stale message
node. -/
theorem c5_number_range_bounds :
    (∀ (form : List Field) (i : ℕ) (f : Field),
      form[i]? = some f → f.required = true → f.tp = "number" →
      f.minAttr = some "5" → f.maxAttr = none → f.value = "4" →
      f.errors.length ≤ 1 →
      (validateForm form).1 = false ∧
      (passwordOverwriteTarget form i = false →
        (validateForm form).2[i]? =
          some { f with invalid := true, errors := ["Value must be at least 5"] }) ∧
      (passwordOverwriteTarget form i = true →
        (validateForm form).2[i]? =
          some { f with invalid := true, errors := ["Passwords do not match"] }) ∧
      strContainsSub "Value must be at least 5" "5" = true) ∧
    (∀ (form : List Field) (i : ℕ) (f : Field),
      form[i]? = some f → f.required = true → f.tp = "number" →
      f.minAttr = some "5" → f.maxAttr = none → f.value = "5" →
      f.errors.length ≤ 1 →
      checkedOk f = true ∧
      (passwordOverwriteTarget form i = false →
        (validateForm form).2[i]? = some { f with invalid := false, errors := [] }) ∧
      (passwordOverwriteTarget form i = true →
        (validateForm form).2[i]? =
          some { f with invalid := true, errors := ["Passwords do not match"] })) ∧
    (∀ (form : List Field) (i : ℕ) (f : Field) (m x : ℚ),
      form[i]? = some f → f.required = true → f.tp = "number" →
      f.maxAttr.bind jsParseFloat = some m →
      jsParseFloat f.value = some x → m < x → (jsTrim f.value == "") = false →
      f.errors.length ≤ 1 →
      (validateForm form).1 = false ∧
      (passwordOverwriteTarget form i = false →
        (validateForm form).2[i]? =
          some { f with
            invalid := true,
            errors := ["Value must be no more than " ++ jsNumToString m] }) ∧
      (passwordOverwriteTarget form i = true →
        (validateForm form).2[i]? =
          some { f with invalid := true, errors := ["Passwords do not match"] }) ∧
      strContainsSub ("Value must be no more than " ++ jsNumToString m)
        (jsNumToString m) = true) := by
  refine ⟨?_, ?_, ?_⟩
  · intro form i f hf hreq htp hminA hmaxA hval herr
    have hvrf := validateRequiredField_min_5_value_4 f htp hminA hmaxA hval herr
    have hcf : checkedField f =
        { f with invalid := true, errors := ["Value must be at least 5"] } := by
      unfold checkedField
      rw [if_pos hreq, hvrf]
    have hok : checkedOk f = false := by
      unfold checkedOk
      rw [hreq, hvrf]
      rfl
    have hres := validateForm_result_at form i f hf herr
    refine ⟨validateForm_fst_false_of_field form i f hf hok, ?_, ?_, by decide⟩
    · intro h
      rw [hres.1 h, hcf]
    · intro h
      have h2 := hres.2 h
      rw [hcf] at h2
      exact h2
  · intro form i f hf hreq htp hminA hmaxA hval herr
    have hne : (jsTrim f.value == "") = false := by rw [hval]; decide
    have hvrf : validateRequiredField f = (clearFieldError f, true) := by
      rw [validateRequiredField_nonempty f hne]
      rw [emailCheck_not_email (clearFieldError f) (by rw [clearFieldError_tp, htp]; decide)]
      dsimp only
      rw [numberCheck_range_ok (clearFieldError f)
        (by rw [clearFieldError_value, clearFieldError_minAttr, hval, hminA]
            with_unfolding_all rfl)
        (by rw [clearFieldError_value, clearFieldError_maxAttr, hmaxA]; simp [optGt_none])]
      simp
    have hcf : checkedField f = { f with invalid := false, errors := [] } := by
      unfold checkedField
      rw [if_pos hreq, hvrf]
      unfold clearFieldError
      rw [errors_tail_eq_nil f herr]
    have hres := validateForm_result_at form i f hf herr
    refine ⟨?_, ?_, ?_⟩
    · unfold checkedOk
      rw [hreq, hvrf]
      rfl
    · intro h
      rw [hres.1 h, hcf]
    · intro h
      have h2 := hres.2 h
      rw [hcf] at h2
      exact h2
  · intro form i f m x hf hreq htp hmaxv hvx hlt hne herr
    have hvrf : validateRequiredField f =
        ({ f with
          invalid := true,
          errors := ["Value must be no more than " ++ jsNumToString m] }, false) := by
      rw [validateRequiredField_nonempty f hne]
      rw [emailCheck_not_email (clearFieldError f) (by rw [clearFieldError_tp, htp]; decide)]
      dsimp only
      rw [numberCheck_max_fires (clearFieldError f) (by rw [clearFieldError_tp, htp]; decide) m
        (by rw [clearFieldError_maxAttr]; exact hmaxv)
        (by rw [clearFieldError_value, clearFieldError_maxAttr, hvx, hmaxv]; simp [optGt, hlt])
        (clearFieldError_errors_le_one f herr)]
      simp only [Bool.true_and]
      rfl
    have hcf : checkedField f =
        { f with
          invalid := true,
          errors := ["Value must be no more than " ++ jsNumToString m] } := by
      unfold checkedField
      rw [if_pos hreq, hvrf]
    have hok : checkedOk f = false := by
      unfold checkedOk
      rw [hreq, hvrf]
      rfl
    have hres := validateForm_result_at form i f hf herr
    refine ⟨validateForm_fst_false_of_field form i f hf hok, ?_, ?_, ?_⟩
    · intro h
      rw [hres.1 h, hcf]
    · intro h
      have h2 := hres.2 h
      rw [hcf] at h2
      exact h2
    · exact strContainsSub_append_right "Value must be no more than " (jsNumToString m)

/-- A required number control with `min="5"` and value 4. -/
def c5MinField : Field :=
  { c5CexField with required := true }

/-- A required number control with `min="5"` and value 5. -/
def c5PassField : Field :=
  { c5CexField with required := true, value := "5" }

/-- A required number control with `min="20"`, `max="10"` and value 12:
both range checks fire and the max message replaces the min message. -/
def c5MaxField : Field :=
  { name := "qty2", tp := "number", value := "12", required := true,
    minAttr := some "20", maxAttr := some "10", invalid := false, validMark := false,
    errors := [] }

/-- Concrete instances of the amended C5, one per part; the third has a
declared firing `min` whose message the `max` message replaces. -/
theorem c5_number_range_bounds_witness :
    ((validateForm [c5MinField]).1 = false ∧
      (validateForm [c5MinField]).2[0]? =
        some { c5MinField with invalid := true, errors := ["Value must be at least 5"] }) ∧
    (checkedOk c5PassField = true ∧
      (validateForm [c5PassField]).2[0]? =
        some { c5PassField with invalid := false, errors := [] }) ∧
    ((validateForm [c5MaxField]).1 = false ∧
      (validateForm [c5MaxField]).2[0]? =
        some { c5MaxField with
          invalid := true,
          errors := ["Value must be no more than " ++ jsNumToString 10] }) := by
  have h1 := c5_number_range_bounds.1 [c5MinField] 0 c5MinField rfl rfl rfl rfl rfl rfl
    (by decide)
  have h2 := c5_number_range_bounds.2.1 [c5PassField] 0 c5PassField rfl rfl rfl rfl rfl rfl
    (by decide)
  have h3 := c5_number_range_bounds.2.2 [c5MaxField] 0 c5MaxField 10 12 rfl rfl rfl
    (by with_unfolding_all rfl) (by with_unfolding_all rfl) (by decide) (by decide)
    (by decide)
  exact ⟨⟨h1.1, h1.2.1 (by decide)⟩, ⟨h2.1, h2.2.1 (by decide)⟩,
    ⟨h3.1, h3.2.1 (by decide)⟩⟩

/- =====================================================================
Product status display (`updateProductDisplay` lines 628-649,
`getStatusColor` lines 652-660) and the explicit track action
(`trackProduct` lines 754-769).
===================================================================== -/

/-- The `environmental_conditions` object of a ProductStatusSnapshot;
absent readings are `none`. -/
structure EnvConditions where
  temperature : Option ℚ
  humidity : Option ℚ
deriving Repr, DecidableEq

/-- A ProductStatusSnapshot as consumed by `updateProductDisplay`. -/
structure ProductData where
  status : Option String
  environmental_conditions : Option EnvConditions
deriving Repr, DecidableEq

/-- The DOM nodes `updateProductDisplay` writes: the `[data-temp]` and
`[data-humidity]` text and the `[data-status]` badge text and class. -/
structure ProductDom where
  tempText : String
  humidityText : String
  statusText : String
  statusClass : String
deriving Repr, DecidableEq

/-- Lines 652-660, `getStatusColor`: the fixed status→color table with
`secondary` as the fallback. -/
def getStatusColor (status : String) : String :=
  if status == "created" then "success"
  else if status == "in_transit" then "warning"
  else if status == "delivered" then "info"
  else if status == "expired" then "danger"
  else "secondary"

/-- Lines 630-641 of `updateProductDisplay`: the environmental-conditions
half. A reading is rendered only when truthy; in this model the falsy
number values are an absent reading and 0. -/
def updateEnvDisplay (env : Option EnvConditions) (dom : ProductDom) : ProductDom :=
  match env with
  | none => dom
  | some e =>
      let dom1 :=
        match e.temperature with
        | some t => if t ≠ 0 then { dom with tempText := jsNumToString t ++ "°C" } else dom
        | none => dom
      match e.humidity with
      | some h => if h ≠ 0 then { dom1 with humidityText := jsNumToString h ++ "%" } else dom1
      | none => dom1

/-- Lines 643-648 of `updateProductDisplay`: the status half. A status is
rendered only when truthy; the falsy string values are absence and "". -/
def updateStatusDisplay (status : Option String) (dom : ProductDom) : ProductDom :=
  match status with
  | some st =>
      if st ≠ "" then
        { dom with statusText := st, statusClass := "badge bg-" ++ getStatusColor st }
      else dom
  | none => dom

/-- Lines 628-649, `updateProductDisplay`. -/
def updateProductDisplay (data : ProductData) (dom : ProductDom) : ProductDom :=
  updateStatusDisplay data.status (updateEnvDisplay data.environmental_conditions dom)

lemma updateStatusDisplay_tempText (status : Option String) (dom : ProductDom) :
    (updateStatusDisplay status dom).tempText = dom.tempText := by
  unfold updateStatusDisplay
  rcases status with _ | st
  · rfl
  · dsimp only
    split <;> rfl

lemma updateStatusDisplay_humidityText (status : Option String) (dom : ProductDom) :
    (updateStatusDisplay status dom).humidityText = dom.humidityText := by
  unfold updateStatusDisplay
  rcases status with _ | st
  · rfl
  · dsimp only
    split <;> rfl

lemma updateEnvDisplay_statusText (env : Option EnvConditions) (dom : ProductDom) :
    (updateEnvDisplay env dom).statusText = dom.statusText := by
  unfold updateEnvDisplay
  rcases env with _ | ⟨t, h⟩
  · rfl
  · dsimp only
    rcases t with _ | tv <;> rcases h with _ | hv <;> dsimp only <;>
      first
        | rfl
        | (split <;> rfl)
        | (split <;> split <;> rfl)

lemma updateEnvDisplay_statusClass (env : Option EnvConditions) (dom : ProductDom) :
    (updateEnvDisplay env dom).statusClass = dom.statusClass := by
  unfold updateEnvDisplay
  rcases env with _ | ⟨t, h⟩
  · rfl
  · dsimp only
    rcases t with _ | tv <;> rcases h with _ | hv <;> dsimp only <;>
      first
        | rfl
        | (split <;> rfl)
        | (split <;> split <;> rfl)

lemma updateEnvDisplay_tempText_frame (env : Option EnvConditions) (dom : ProductDom)
    (h : env.bind EnvConditions.temperature = none ∨
      env.bind EnvConditions.temperature = some 0) :
    (updateEnvDisplay env dom).tempText = dom.tempText := by
  unfold updateEnvDisplay
  rcases env with _ | ⟨t, hu⟩
  · rfl
  · dsimp only
    simp only [Option.some_bind] at h
    rcases t with _ | tv
    · rcases hu with _ | hv
      · rfl
      · dsimp only
        split <;> rfl
    · have htv : tv = 0 := by
        rcases h with h | h
        · cases h
        · exact Option.some.inj h
      subst htv
      simp only [ne_eq, not_true_eq_false, if_false, reduceIte]
      rcases hu with _ | hv
      · rfl
      · dsimp only
        split <;> rfl

lemma updateEnvDisplay_humidityText_frame (env : Option EnvConditions) (dom : ProductDom)
    (h : env.bind EnvConditions.humidity = none ∨
      env.bind EnvConditions.humidity = some 0) :
    (updateEnvDisplay env dom).humidityText = dom.humidityText := by
  unfold updateEnvDisplay
  rcases env with _ | ⟨t, hu⟩
  · rfl
  · dsimp only
    simp only [Option.some_bind] at h
    rcases hu with _ | hv
    · rcases t with _ | tv
      · rfl
      · dsimp only
        split <;> rfl
    · have hhv : hv = 0 := by
        rcases h with h | h
        · cases h
        · exact Option.some.inj h
      subst hhv
      simp only [ne_eq, not_true_eq_false, if_false, reduceIte]
      rcases t with _ | tv
      · rfl
      · dsimp only
        split <;> rfl

/-- C10. Frame conditions of `updateProductDisplay`: a falsy temperature
or humidity (absent, or the value 0) leaves the corresponding DOM text
unchanged, a falsy status (absent or empty) leaves the badge text and
class unchanged, and conversely truthy readings and statuses are rendered
with their template text. -/
theorem c10_update_product_display_frame (data : ProductData) (dom : ProductDom) :
    ((data.environmental_conditions.bind EnvConditions.temperature = none ∨
      data.environmental_conditions.bind EnvConditions.temperature = some 0) →
      (updateProductDisplay data dom).tempText = dom.tempText) ∧
    ((data.environmental_conditions.bind EnvConditions.humidity = none ∨
      data.environmental_conditions.bind EnvConditions.humidity = some 0) →
      (updateProductDisplay data dom).humidityText = dom.humidityText) ∧
    ((data.status = none ∨ data.status = some "") →
      (updateProductDisplay data dom).statusText = dom.statusText ∧
      (updateProductDisplay data dom).statusClass = dom.statusClass) ∧
    (∀ env t, data.environmental_conditions = some env → env.temperature = some t →
      t ≠ 0 → (updateProductDisplay data dom).tempText = jsNumToString t ++ "°C") ∧
    (∀ st, data.status = some st → st ≠ "" →
      (updateProductDisplay data dom).statusText = st ∧
      (updateProductDisplay data dom).statusClass = "badge bg-" ++ getStatusColor st) := by
  refine ⟨?_, ?_, ?_, ?_, ?_⟩
  · intro h
    unfold updateProductDisplay
    rw [updateStatusDisplay_tempText]
    exact updateEnvDisplay_tempText_frame _ dom h
  · intro h
    unfold updateProductDisplay
    rw [updateStatusDisplay_humidityText]
    exact updateEnvDisplay_humidityText_frame _ dom h
  · intro h
    unfold updateProductDisplay
    have hst : updateStatusDisplay data.status
        (updateEnvDisplay data.environmental_conditions dom) =
        updateEnvDisplay data.environmental_conditions dom := by
      rcases h with h | h <;> rw [h] <;> simp [updateStatusDisplay]
    rw [hst, updateEnvDisplay_statusText, updateEnvDisplay_statusClass]
    exact ⟨rfl, rfl⟩
  · intro env t henv ht htnz
    unfold updateProductDisplay
    rw [updateStatusDisplay_tempText]
    unfold updateEnvDisplay
    rw [henv]
    dsimp only
    rw [ht]
    dsimp only
    rw [if_pos htnz]
    rcases henvh : env.humidity with _ | hv
    · rfl
    · dsimp only
      split <;> rfl
  · intro st hst hstnz
    unfold updateProductDisplay updateStatusDisplay
    rw [hst]
    dsimp only
    rw [if_pos hstnz]
    exact ⟨rfl, rfl⟩

/-- Concrete instance of C10: a snapshot with temperature 0, humidity 55
and no status leaves the temperature text and the badge untouched and
renders only the humidity. -/
theorem c10_update_product_display_frame_witness :
    (updateProductDisplay
      { status := none,
        environmental_conditions := some { temperature := some 0, humidity := some 55 } }
      { tempText := "4°C", humidityText := "40%", statusText := "created",
        statusClass := "badge bg-success" }).tempText = "4°C" ∧
    (updateProductDisplay
      { status := none,
        environmental_conditions := some { temperature := some 0, humidity := some 55 } }
      { tempText := "4°C", humidityText := "40%", statusText := "created",
        statusClass := "badge bg-success" }).statusText = "created" := by
  have h := c10_update_product_display_frame
    { status := none,
      environmental_conditions := some { temperature := some 0, humidity := some 55 } }
    { tempText := "4°C", humidityText := "40%", statusText := "created",
      statusClass := "badge bg-success" }
  exact ⟨h.1 (Or.inr (by with_unfolding_all rfl)), (h.2.2.1 (Or.inl rfl)).1⟩

/-- Outcome of a `fetch(...).then(r => r.json())` chain: the promise
either rejects or resolves with a parsed value. -/
inductive FetchOutcome (α : Type) where
  | rejected
  | resolved (value : α)
deriving Repr, DecidableEq

/-- The `{success, product}` payload returned by
`/products/api/{id}/track` to the explicit track action. -/
structure TrackResponse where
  success : Bool
  product : ProductData
deriving Repr, DecidableEq

/-- Lines 754-769, `trackProduct(productId)`: a falsy (empty) id is a
no-op; a resolved response with `success` updates the product display and
raises a success notification; a rejected fetch raises a danger
notification; a resolved response without `success` does nothing. Returns
the notification calls issued and the updated display. -/
def trackProduct (productId : String) (outcome : FetchOutcome TrackResponse)
    (dom : ProductDom) : List NotifyCall × ProductDom :=
  if productId == "" then ([], dom)
  else
    match outcome with
    | FetchOutcome.rejected =>
        ([{ message := "Failed to update product status", ntype := "danger", duration := 5000 }],
          dom)
    | FetchOutcome.resolved d =>
        if d.success then
          ([{ message := "Product status updated", ntype := "success", duration := 5000 }],
            updateProductDisplay d.product dom)
        else ([], dom)

/-- An empty snapshot and a blank display, used as concrete inputs. -/
def noProduct : ProductData := { status := none, environmental_conditions := none }

/-- A blank product display. -/
def blankDom : ProductDom :=
  { tempText := "", humidityText := "", statusText := "", statusClass := "" }

/-- C3 counterexample. An invocation of `trackProduct` whose fetch
resolves successfully but whose payload carries `success: false` surfaces
no notification at all: the claim that a notification is surfaced on both
success and failure of the request fails on this outcome (the code only
notifies on `success: true` payloads and on rejected fetches). -/
theorem c3_counterexample :
    (trackProduct "P1" (FetchOutcome.resolved { success := false, product := noProduct })
      blankDom).1 = [] ∧
    (trackProduct "P1" (FetchOutcome.resolved { success := false, product := noProduct })
      blankDom).2 = blankDom := ⟨rfl, rfl⟩

/-- C3 (amended). For a non-empty product id, `trackProduct` surfaces a
success notification exactly when the resolved payload reports success
(also applying the snapshot to the display), surfaces a danger
notification when the fetch rejects, and surfaces nothing when the
payload reports failure. -/
theorem c3_track_product_notifications (pid : String) (h : pid ≠ "")
    (d : ProductData) (dom : ProductDom) :
    (trackProduct pid FetchOutcome.rejected dom).1 =
      [{ message := "Failed to update product status", ntype := "danger", duration := 5000 }] ∧
    (trackProduct pid (FetchOutcome.resolved { success := true, product := d }) dom).1 =
      [{ message := "Product status updated", ntype := "success", duration := 5000 }] ∧
    (trackProduct pid (FetchOutcome.resolved { success := true, product := d }) dom).2 =
      updateProductDisplay d dom ∧
    (trackProduct pid (FetchOutcome.resolved { success := false, product := d }) dom).1 = [] ∧
    (trackProduct pid (FetchOutcome.resolved { success := false, product := d }) dom).2 = dom := by
  have hpid : (pid == "") = false := by simp [h]
  unfold trackProduct
  rw [hpid]
  simp

/-- Concrete instance of the amended C3. -/
theorem c3_track_product_notifications_witness :
    (trackProduct "P1" FetchOutcome.rejected blankDom).1 =
      [{ message := "Failed to update product status", ntype := "danger", duration := 5000 }] ∧
    (trackProduct "P1" (FetchOutcome.resolved { success := true, product := noProduct })
      blankDom).1 =
      [{ message := "Product status updated", ntype := "success", duration := 5000 }] := by
  have h := c3_track_product_notifications "P1" (by decide) noProduct blankDom
  exact ⟨h.1, h.2.1⟩

/- Fraud alerts (C4), `checkFraudAlerts` lines 445-458. -/

/-- A fraud alert entry from `/analytics/api/fraud_alerts`. -/
structure FraudAlert where
  message : String
  severity : String
deriving Repr, DecidableEq

/-- Lines 445-458, `checkFraudAlerts`: on a resolved alert list, iterates
over the entries and raises a danger notification with a 10000 ms duration
for each entry of severity "high"; other entries have no effect. Returns
the notification calls issued, in order. -/
def checkFraudAlerts (alerts : List FraudAlert) : List NotifyCall :=
  if alerts.length > 0 then
    alerts.foldl (fun acc a =>
      if a.severity == "high" then
        acc ++ [{ message := a.message, ntype := "danger", duration := 10000 }]
      else acc) []
  else []

lemma checkFraudAlerts_foldl (alerts : List FraudAlert) :
    ∀ acc : List NotifyCall,
      alerts.foldl (fun acc a =>
        if a.severity == "high" then
          acc ++ [{ message := a.message, ntype := "danger", duration := 10000 }]
        else acc) acc =
      acc ++ (alerts.filter (fun a => a.severity == "high")).map
        (fun a => { message := a.message, ntype := "danger", duration := 10000 }) := by
  induction alerts with
  | nil => intro acc; simp
  | cons a rest ih =>
      intro acc
      rw [List.foldl_cons, List.filter_cons]
      rcases hsev : (a.severity == "high") with _ | _
      · rw [if_neg (by simp [hsev])]
        simp only [hsev, Bool.false_eq_true, if_false, reduceIte]
        exact ih acc
      · have h2 := ih (acc ++ [{ message := a.message, ntype := "danger", duration := 10000 }])
        rw [if_pos (by simp [hsev])]
        simp only [hsev, if_true, reduceIte]
        rw [h2]
        simp

/-- C4. `checkFraudAlerts` raises exactly one danger notification of
duration 10000 ms, carrying the alert's message, for each entry of
severity "high", in order, and nothing for entries of any other severity. -/
theorem c4_fraud_alerts_filter (alerts : List FraudAlert) :
    checkFraudAlerts alerts =
      (alerts.filter (fun a => a.severity == "high")).map
        (fun a => { message := a.message, ntype := "danger", duration := 10000 }) ∧
    checkFraudAlerts
      [{ message := "m1", severity := "low" }, { message := "m2", severity := "high" },
       { message := "m3", severity := "medium" }] =
      [{ message := "m2", ntype := "danger", duration := 10000 }] := by
  constructor
  · unfold checkFraudAlerts
    rcases alerts with _ | ⟨a, rest⟩
    · rfl
    · rw [if_pos (by simp)]
      exact checkFraudAlerts_foldl (a :: rest) []
  · rfl

/- CSV export (C7), `exportToCSV` lines 894-903. -/

/-- A uniform data row: the object's key/value pairs in insertion order,
values already rendered to text the way the template join renders them. -/
abbrev CsvRow := List (String × String)

/-- Lines 894-903, `exportToCSV(data, filename)`: empty or missing data is
a silent no-op; otherwise the content is the first row's keys joined by
commas, followed by each row's values joined by commas, all joined by
newlines — no quoting or escaping — and the download is triggered with
`filename.csv` and the `text/csv` content type. -/
def exportToCSV (data : List CsvRow) (filename : String) :
    Option (String × String × String) :=
  match data with
  | [] => none
  | first :: rest =>
      some (String.intercalate "\n"
          (String.intercalate "," (first.map Prod.fst) ::
            (first :: rest).map (fun row => String.intercalate "," (row.map Prod.snd))),
        filename ++ ".csv", "text/csv")

/-- C7. For nonempty uniform data, the CSV content starts with the first
row's keys joined by commas and continues with one line per row holding
the row's values joined by commas, with no quoting; in particular the
two-row example yields "a,b", "1,2", "3,4" as its three lines. -/
theorem c7_export_csv (first : CsvRow) (rest : List CsvRow) (filename : String) :
    exportToCSV (first :: rest) filename =
      some (String.intercalate "\n"
          (String.intercalate "," (first.map Prod.fst) ::
            (first :: rest).map (fun row => String.intercalate "," (row.map Prod.snd))),
        filename ++ ".csv", "text/csv") ∧
    exportToCSV [] filename = none ∧
    exportToCSV [[("a", "1"), ("b", "2")], [("a", "3"), ("b", "4")]] "export" =
      some ("a,b\n1,2\n3,4", "export.csv", "text/csv") ∧
    "a,b\n1,2\n3,4" = "a,b" ++ "\n" ++ "1,2" ++ "\n" ++ "3,4" := by
  refine ⟨rfl, rfl, ?_, by decide⟩
  with_unfolding_all rfl

/- Theme controller (C8), `initializeThemeToggle` lines 29-67. -/

/-- The persisted light/dark preference. -/
inductive Theme where
  | light
  | dark
deriving Repr, DecidableEq

/-- Theme-relevant state: the `localStorage` entry for the `theme` key and
the document body's `data-theme` attribute. -/
structure ThemeState where
  stored : Option Theme
  bodyAttr : Theme
deriving Repr, DecidableEq

/-- Lines 36-45 of `initializeThemeToggle`: read the saved preference
defaulting to light, and apply it to the body attribute. -/
def initializeThemeToggle (stored : Option Theme) : ThemeState :=
  match stored.getD Theme.light with
  | Theme.dark => { stored := stored, bodyAttr := Theme.dark }
  | Theme.light => { stored := stored, bodyAttr := Theme.light }

/-- Lines 49-65, the toggle click handler: flip the body attribute, persist
the new value, and announce it with a short-lived info notification. -/
def toggleTheme (s : ThemeState) : ThemeState × NotifyCall :=
  if s.bodyAttr = Theme.dark then
    ({ stored := some Theme.light, bodyAttr := Theme.light },
      { message := "Light theme activated", ntype := "info", duration := 2000 })
  else
    ({ stored := some Theme.dark, bodyAttr := Theme.dark },
      { message := "Dark theme activated", ntype := "info", duration := 2000 })

/-- The persisted preference as read back by the controller (spec contract
`getTheme`): the stored value, defaulting to light. -/
def getTheme (s : ThemeState) : Theme := s.stored.getD Theme.light

/-- C8. Toggling the theme twice restores the persisted preference (read
with its light default) to its original value, and after initialization
and after every individual toggle the body attribute agrees with the
persisted preference. -/
theorem c8_theme_toggle_involution (stored : Option Theme) :
    getTheme ((toggleTheme ((toggleTheme (initializeThemeToggle stored)).1)).1) =
      getTheme (initializeThemeToggle stored) ∧
    (initializeThemeToggle stored).bodyAttr = getTheme (initializeThemeToggle stored) ∧
    ((toggleTheme (initializeThemeToggle stored)).1).bodyAttr =
      getTheme ((toggleTheme (initializeThemeToggle stored)).1) ∧
    ((toggleTheme ((toggleTheme (initializeThemeToggle stored)).1)).1).bodyAttr =
      getTheme ((toggleTheme ((toggleTheme (initializeThemeToggle stored)).1)).1) := by
  rcases stored with _ | t
  · exact ⟨rfl, rfl, rfl, rfl⟩
  · cases t
    · exact ⟨rfl, rfl, rfl, rfl⟩
    · exact ⟨rfl, rfl, rfl, rfl⟩

/- =====================================================================
Counter animation (`animateNumber` lines 369-382). JS numbers are
modelled as exact rationals.
===================================================================== -/

/-- State of one `animateNumber` interval: the closure's `current`
accumulator, the text last rendered into the element (`none` while the
original text is still untouched), and whether the interval has been
cleared. -/
structure AnimState where
  current : ℚ
  displayed : Option ℤ
  cleared : Bool
deriving Repr, DecidableEq

/-- Lines 374-381, one tick of the `setInterval` callback: add the
increment to `current`, and if the tween has reached or passed the target
(in the direction of the increment), snap `current` to the target and
clear the interval; in every tick the element text is set to `Math.floor`
of the accumulator. A cleared interval ticks no more. -/
def animateStep (inc target : ℚ) (s : AnimState) : AnimState :=
  if s.cleared then s
  else
    let c := s.current + inc
    if (0 < inc ∧ target ≤ c) ∨ (inc < 0 ∧ c ≤ target) then
      { current := target, displayed := some (Int.floor target), cleared := true }
    else
      { current := c, displayed := some (Int.floor c), cleared := false }

/-- Line 370: `parseInt(element.textContent) || 0` — the element's current
text parsed as an integer, non-numeric text counting as 0. -/
def animCur (txt : String) : ℚ := ((jsParseInt txt).getD 0 : ℤ)

/-- Line 371: `increment = (newValue - currentValue) / 20`. -/
def animInc (txt : String) (target : ℚ) : ℚ := (target - animCur txt) / 20

/-- Lines 369-382, `animateNumber`: the interval state after `k` ticks. -/
def animRun (txt : String) (target : ℚ) (k : ℕ) : AnimState :=
  (animateStep (animInc txt target) target)^[k]
    { current := animCur txt, displayed := none, cleared := false }

lemma animateStep_cleared (inc target : ℚ) (s : AnimState) (h : s.cleared = true) :
    animateStep inc target s = s := by
  unfold animateStep
  rw [if_pos h]

lemma animateStep_apply (inc target : ℚ) (s : AnimState) (h : s.cleared = false) :
    animateStep inc target s =
      if (0 < inc ∧ target ≤ s.current + inc) ∨ (inc < 0 ∧ s.current + inc ≤ target) then
        { current := target, displayed := some (Int.floor target), cleared := true }
      else
        { current := s.current + inc, displayed := some (Int.floor (s.current + inc)),
          cleared := false } := by
  unfold animateStep
  rw [if_neg (by simp [h])]

lemma animRun_stall (txt : String) (target : ℚ) (h : animCur txt = target) :
    ∀ k, (animRun txt target k).cleared = false ∧
      (animRun txt target k).current = animCur txt := by
  have hinc : animInc txt target = 0 := by
    unfold animInc
    rw [h, sub_self, zero_div]
  intro k
  induction k with
  | zero => exact ⟨rfl, rfl⟩
  | succ n ih =>
      obtain ⟨ihc, ihcur⟩ := ih
      unfold animRun at ihc ihcur ⊢
      rw [Function.iterate_succ_apply', animateStep_apply _ _ _ ihc, ihcur, hinc]
      rw [if_neg (by simp)]
      exact ⟨rfl, by rw [add_zero]⟩

lemma animCur_add_twenty (txt : String) (target : ℚ) :
    animCur txt + 20 * animInc txt target = target := by
  unfold animInc
  field_simp

lemma animRun_progress_pos (txt : String) (target : ℚ) (h : animCur txt < target) :
    ∀ k, k ≤ 19 → (animRun txt target k).cleared = false ∧
      (animRun txt target k).current = animCur txt + k * animInc txt target := by
  have hinc : 0 < animInc txt target :=
    div_pos (sub_pos.mpr h) (by norm_num)
  intro k
  induction k with
  | zero => exact fun _ => ⟨rfl, by unfold animRun; simp⟩
  | succ n ih =>
      intro hk
      have hn : n ≤ 19 := by omega
      obtain ⟨ihc, ihcur⟩ := ih hn
      have hcnew : animCur txt + n * animInc txt target + animInc txt target =
          animCur txt + ((n : ℚ) + 1) * animInc txt target := by ring
      have hlt2 : animCur txt + ((n : ℚ) + 1) * animInc txt target < target := by
        have h20 := animCur_add_twenty txt target
        have hmul : ((n : ℚ) + 1) * animInc txt target < 20 * animInc txt target := by
          apply mul_lt_mul_of_pos_right _ hinc
          have hn18 : (n : ℚ) ≤ 18 := by exact_mod_cast (by omega : n ≤ 18)
          linarith
        linarith
      unfold animRun at ihc ihcur ⊢
      rw [Function.iterate_succ_apply', animateStep_apply _ _ _ ihc, ihcur, hcnew]
      rw [if_neg ?_]
      · refine ⟨rfl, ?_⟩
        push_cast
        ring
      · rintro (⟨_, h2⟩ | ⟨h1, _⟩)
        · exact absurd h2 (not_le.mpr hlt2)
        · exact absurd h1 (not_lt.mpr hinc.le)

lemma animRun_progress_neg (txt : String) (target : ℚ) (h : target < animCur txt) :
    ∀ k, k ≤ 19 → (animRun txt target k).cleared = false ∧
      (animRun txt target k).current = animCur txt + k * animInc txt target := by
  have hinc : animInc txt target < 0 :=
    div_neg_of_neg_of_pos (sub_neg.mpr h) (by norm_num)
  intro k
  induction k with
  | zero => exact fun _ => ⟨rfl, by unfold animRun; simp⟩
  | succ n ih =>
      intro hk
      have hn : n ≤ 19 := by omega
      obtain ⟨ihc, ihcur⟩ := ih hn
      have hcnew : animCur txt + n * animInc txt target + animInc txt target =
          animCur txt + ((n : ℚ) + 1) * animInc txt target := by ring
      have hgt2 : target < animCur txt + ((n : ℚ) + 1) * animInc txt target := by
        have h20 := animCur_add_twenty txt target
        have hmul : 20 * animInc txt target < ((n : ℚ) + 1) * animInc txt target := by
          apply mul_lt_mul_of_neg_right _ hinc
          have hn18 : (n : ℚ) ≤ 18 := by exact_mod_cast (by omega : n ≤ 18)
          linarith
        linarith
      unfold animRun at ihc ihcur ⊢
      rw [Function.iterate_succ_apply', animateStep_apply _ _ _ ihc, ihcur, hcnew]
      rw [if_neg ?_]
      · refine ⟨rfl, ?_⟩
        push_cast
        ring
      · rintro (⟨h1, _⟩ | ⟨_, h2⟩)
        · exact absurd h1 (not_lt.mpr hinc.le)
        · exact absurd h2 (not_le.mpr hgt2)

lemma animRun_pos_stops (txt : String) (target : ℚ) (h : animCur txt < target) :
    animRun txt target 20 =
      { current := target, displayed := some (Int.floor target), cleared := true } := by
  have hinc : 0 < animInc txt target :=
    div_pos (sub_pos.mpr h) (by norm_num)
  obtain ⟨ihc, ihcur⟩ := animRun_progress_pos txt target h 19 (by norm_num)
  have h20 : animCur txt + ((19 : ℕ) : ℚ) * animInc txt target + animInc txt target = target := by
    have := animCur_add_twenty txt target
    push_cast
    linarith
  unfold animRun at ihc ihcur ⊢
  rw [show (20 : ℕ) = 19 + 1 from rfl, Function.iterate_succ_apply',
    animateStep_apply _ _ _ ihc, ihcur, h20]
  rw [if_pos (Or.inl ⟨hinc, le_refl target⟩)]

lemma animRun_neg_stops (txt : String) (target : ℚ) (h : target < animCur txt) :
    animRun txt target 20 =
      { current := target, displayed := some (Int.floor target), cleared := true } := by
  have hinc : animInc txt target < 0 :=
    div_neg_of_neg_of_pos (sub_neg.mpr h) (by norm_num)
  obtain ⟨ihc, ihcur⟩ := animRun_progress_neg txt target h 19 (by norm_num)
  have h20 : animCur txt + ((19 : ℕ) : ℚ) * animInc txt target + animInc txt target = target := by
    have := animCur_add_twenty txt target
    push_cast
    linarith
  unfold animRun at ihc ihcur ⊢
  rw [show (20 : ℕ) = 19 + 1 from rfl, Function.iterate_succ_apply',
    animateStep_apply _ _ _ ihc, ihcur, h20]
  rw [if_pos (Or.inr ⟨hinc, le_refl target⟩)]

lemma animRun_stays (txt : String) (target : ℚ) (k j : ℕ)
    (h : (animRun txt target k).cleared = true) :
    animRun txt target (k + j) = animRun txt target k := by
  induction j with
  | zero => rfl
  | succ n ih =>
      unfold animRun at ih ⊢
      rw [show k + (n + 1) = (k + n) + 1 by omega, Function.iterate_succ_apply']
      have hik : (animateStep (animInc txt target) target)^[k + n]
          { current := animCur txt, displayed := none, cleared := false } =
          (animateStep (animInc txt target) target)^[k]
          { current := animCur txt, displayed := none, cleared := false } := ih
      rw [hik]
      unfold animRun at h
      exact animateStep_cleared _ _ _ h

/-- C9. If the animation target differs from the number parsed from the
element's text (non-numeric text counting as 0), the interval is cleared
— on the 20th tick — with the element's final text equal to `Math.floor`
of the target, and every later tick leaves the state unchanged; if the
target equals the parsed value, the increment is 0, the stopping
condition never holds and the interval is never cleared. -/
theorem c9_animate_number_termination (txt : String) (target : ℚ) :
    (animCur txt ≠ target →
      (animRun txt target 20).cleared = true ∧
      (animRun txt target 20).displayed = some (Int.floor target) ∧
      ∀ j, animRun txt target (20 + j) = animRun txt target 20) ∧
    (animCur txt = target → ∀ k, (animRun txt target k).cleared = false) := by
  constructor
  · intro hne
    rcases lt_or_gt_of_ne hne with hlt | hgt
    · have hstop := animRun_pos_stops txt target hlt
      exact ⟨by rw [hstop], by rw [hstop],
        fun j => animRun_stays txt target 20 j (by rw [hstop])⟩
    · have hstop := animRun_neg_stops txt target hgt
      exact ⟨by rw [hstop], by rw [hstop],
        fun j => animRun_stays txt target 20 j (by rw [hstop])⟩
  · intro heq k
    exact (animRun_stall txt target heq k).1

/-- Concrete instance of C9: animating from text "0" to 20 clears the
interval at tick 20 showing 20, while animating from text "5" to 5 never
clears it. -/
theorem c9_animate_number_termination_witness :
    (animRun "0" 20 20).cleared = true ∧
    (animRun "0" 20 20).displayed = some 20 ∧
    (animRun "5" 5 3).cleared = false := by
  have h1 := (c9_animate_number_termination "0" 20).1
    (by with_unfolding_all decide)
  have h2 := (c9_animate_number_termination "5" 5).2
    (by with_unfolding_all decide) 3
  refine ⟨h1.1, ?_, h2⟩
  rw [h1.2.1]
  norm_num

end FoodChain
